import Mathlib

/-!
Shallow embedding of the SynergyScope frontend JavaScript
(frontend/static/js/main.js, meta_chat.js, demo.js, synergy_graph.js,
visualizations.js).

The frontend functions are single-threaded event handlers whose observable
behaviour is a sequence of DOM / console / network effects.  Each JS function
is embedded as a pure Lean function from its inputs (DOM input values and the
outcome of its one `fetch`, which is external) to the list of effects it
performs, in program order.  Numbers are modelled as `ℚ` (idealised JS
numbers), JSON values as an inductive `JVal`.
-/

/-- One observable effect performed by a frontend event handler. -/
inductive Effect where
  /-- a `fetch(url, \x7bmethod, body\x7d)` request being issued -/
  | fetchReq (method : String) (url : String) (body : Option String)
  /-- `element.innerHTML = html` on the element with the given id -/
  | setInnerHTML (elemId : String) (html : String)
  /-- `parent.appendChild(div)` of a freshly created div with the given
      class and inner HTML -/
  | appendChild (parentId : String) (cssClass : String) (html : String)
  /-- `input.value = v` -/
  | setInputValue (elemId : String) (value : String)
  /-- `console.log(msg)` -/
  | consoleLog (msg : String)
  /-- `console.error(msg, error)` -/
  | consoleError (msg : String)
  /-- `indicator.className = cssClass` on a status dot inside the agent card -/
  | setClassName (agentName : String) (cssClass : String)
  /-- `messagesDiv.scrollTop = messagesDiv.scrollHeight` -/
  | scrollToBottom (elemId : String)
  /-- `await sleep(ms)` -/
  | sleep (ms : Nat)
  deriving DecidableEq, Repr

/-- Outcome of the `fetch` in `checkSystemHealth`: either a JSON body whose
`services` field is a map from service name to status string, or a thrown
error. -/
inductive HealthOutcome where
  | ok (services : List (String × String))
  | failure (errMsg : String)
  deriving DecidableEq, Repr

/-- Outcome of the `fetch` in `analyzeSummoner`: `response.ok` with the two
fields the success branch reads, a non-ok HTTP response with a `detail`
field, or a thrown error. -/
inductive AnalyzeOutcome where
  | ok (analysisId : String) (estimatedTime : String)
  | httpError (detail : String)
  | networkError (errMsg : String)
  deriving DecidableEq, Repr

/-- Outcome of the `fetch` in the chat senders: a JSON body with a
`response` field, or a thrown error. -/
inductive ChatOutcome where
  | ok (response : String)
  | error (errMsg : String)
  deriving DecidableEq, Repr

/-- `const API_BASE_URL = '/api/v1';`  (main.js line 6) -/
def API_BASE_URL : String := "/api/v1"

/-- The `agentMapping` object literal in `updateAgentStatus` (main.js). -/
def agentMapping : List (String × String) :=
  [("api", "social-graph"), ("neptune", "chemistry"),
   ("sagemaker", "adaptation"), ("bedrock", "storyteller")]

/-- `updateAgentStatus(services)` (main.js): for each service with a mapped
agent card, set the status dot class from the status string. -/
def updateAgentStatus (services : List (String × String)) : List Effect :=
  services.filterMap fun sv =>
    (agentMapping.lookup sv.1).map fun agent =>
      Effect.setClassName agent
        (if sv.2 = "operational" then "status-dot status-active"
         else "status-dot status-inactive")

/-- `checkSystemHealth()` (main.js lines 16-26).  The `try` block fetches
`/api/v1/health`, logs the parsed body and updates the agent status dots;
the `catch` block only logs to the console. -/
def checkSystemHealth (outcome : HealthOutcome) : List Effect :=
  match outcome with
  | .ok services =>
      Effect.fetchReq "GET" (API_BASE_URL ++ "/health") none ::
      Effect.consoleLog "System Health:" ::
      updateAgentStatus services
  | .failure errMsg =>
      [Effect.fetchReq "GET" (API_BASE_URL ++ "/health") none,
       Effect.consoleError ("Health check failed: " ++ errMsg)]

/-- The JSON body `analyzeSummoner` posts
(`JSON.stringify` of its request object, in property order). -/
def analyzeBody (summonerName region : String) : String :=
  "\x7b\"summoner_name\":\"" ++ summonerName ++ "\",\"region\":\"" ++ region ++
    "\",\"match_count\":100,\"include_ranked_only\":true\x7d"

/-- `analyzeSummoner()` (main.js lines 51-93).  Inputs are the values of the
`summonerName` and `region` fields; an empty summoner name is falsy, so the
function writes the validation message and returns before the fetch.
`pollAnalysisStatus` (lines 96-98) only logs. -/
def analyzeSummoner (summonerName region : String) (outcome : AnalyzeOutcome) :
    List Effect :=
  if summonerName = "" then
    [Effect.setInnerHTML "analysisStatus"
      "<p style=\"color: var(--error);\">Please enter a summoner name</p>"]
  else
    Effect.setInnerHTML "analysisStatus"
      "<p style=\"color: var(--warning);\">Analyzing... This may take 2-5 minutes</p>" ::
    Effect.fetchReq "POST" (API_BASE_URL ++ "/summoner/analyze")
      (some (analyzeBody summonerName region)) ::
    match outcome with
    | .ok analysisId estimatedTime =>
        [Effect.setInnerHTML "analysisStatus"
          ("<p style=\"color: var(--success);\">Analysis Started!</p><p>Analysis ID: " ++
            analysisId ++ "</p><p>Estimated time: " ++ estimatedTime ++ "</p>"),
         Effect.consoleLog ("Polling analysis status: " ++ analysisId)]
    | .httpError detail =>
        [Effect.setInnerHTML "analysisStatus"
          ("<p style=\"color: var(--error);\">Analysis failed: " ++ detail ++ "</p>")]
    | .networkError errMsg =>
        [Effect.setInnerHTML "analysisStatus"
          ("<p style=\"color: var(--error);\">Error: " ++ errMsg ++ "</p>")]

/-- The JSON body both chat senders post. -/
def chatBody (message : String) : String :=
  "\x7b\"summoner_id\":\"current_user\",\"question\":\"" ++ message ++ "\"\x7d"

/-- JavaScript `String.prototype.trim()`: remove whitespace from both ends
of the string. -/
def jsTrim (s : String) : String :=
  ⟨((s.data.dropWhile Char.isWhitespace).reverse.dropWhile Char.isWhitespace).reverse⟩

/-- `sendChatMessage()` (main.js lines 107-152).  The input value is trimmed;
an empty trimmed message returns before any effect.  The error branch logs
and appends a canned bot message. -/
def sendChatMessage (inputValue : String) (outcome : ChatOutcome) : List Effect :=
  let message := jsTrim inputValue
  if message = "" then []
  else
    Effect.appendChild "chatMessages" "chat-message user" ("<p>" ++ message ++ "</p>") ::
    Effect.setInputValue "chatInput" "" ::
    Effect.scrollToBottom "chatMessages" ::
    Effect.fetchReq "POST" (API_BASE_URL ++ "/meta/chat") (some (chatBody message)) ::
    match outcome with
    | .ok response =>
        [Effect.appendChild "chatMessages" "chat-message bot" ("<p>" ++ response ++ "</p>"),
         Effect.scrollToBottom "chatMessages"]
    | .error errMsg =>
        [Effect.consoleError ("Chat error: " ++ errMsg),
         Effect.appendChild "chatMessages" "chat-message bot"
           "<p>Sorry, I encountered an error. Please try again.</p>"]

namespace MetaChat

/-- `MetaChat.addMessage(text, sender)` (meta_chat.js): append a
`chat-message` div and scroll the message list. -/
def addMessage (text sender : String) : List Effect :=
  [Effect.appendChild "chat-messages" ("chat-message " ++ sender) ("<p>" ++ text ++ "</p>"),
   Effect.scrollToBottom "chat-messages"]

/-- `MetaChat.sendMessage()` (meta_chat.js lines 21-43).  The input value is
trimmed; an empty trimmed message returns before any effect.  The error
branch appends a canned bot message (no console logging). -/
def sendMessage (inputValue : String) (outcome : ChatOutcome) : List Effect :=
  let message := jsTrim inputValue
  if message = "" then []
  else
    addMessage message "user" ++
    Effect.setInputValue "chat-input" "" ::
    Effect.fetchReq "POST" "/api/v1/meta/chat" (some (chatBody message)) ::
    match outcome with
    | .ok response => addMessage response "bot"
    | .error _ => addMessage "Sorry, an error occurred." "bot"

end MetaChat

/-- Is the effect a network request? -/
def Effect.isFetch : Effect → Bool
  | .fetchReq _ _ _ => true
  | _ => false

/-- URLs of the network requests in a trace. -/
def fetchUrls (trace : List Effect) : List String :=
  trace.filterMap fun e => match e with
    | .fetchReq _ url _ => some url
    | _ => none

/-- Is the effect a write of visible content into the page (setting inner
HTML or appending a message element)? -/
def Effect.isPageDisplay : Effect → Bool
  | .setInnerHTML _ _ => true
  | .appendChild _ _ _ => true
  | _ => false

/-- Is the effect a `console.error` log? -/
def Effect.isConsoleError : Effect → Bool
  | .consoleError _ => true
  | _ => false

/-- Number of network requests issued in a trace. -/
def countFetch (trace : List Effect) : Nat :=
  trace.countP fun e => e.isFetch

lemma countFetch_updateAgentStatus (services : List (String × String)) :
    countFetch (updateAgentStatus services) = 0 := by
  rw [countFetch, List.countP_eq_zero]
  intro e he
  simp only [updateAgentStatus, List.mem_filterMap] at he
  obtain ⟨sv, _, hsv⟩ := he
  cases h : agentMapping.lookup sv.1 with
  | none => rw [h] at hsv; simp at hsv
  | some agent =>
    rw [h] at hsv
    simp only [Option.map] at hsv
    injection hsv with hsv
    cases hsv
    simp [Effect.isFetch]

/-- C1: Submitting the analyze form with an empty summoner name writes the
validation message `Please enter a summoner name` into the `analysisStatus`
element as its only effect; in particular no request to
`/api/v1/summoner/analyze` (or anywhere else) is issued. -/
theorem analyzeSummoner_empty_name_validates (region : String)
    (outcome : AnalyzeOutcome) (summonerName : String)
    (h : summonerName = "") :
    analyzeSummoner summonerName region outcome =
      [Effect.setInnerHTML "analysisStatus"
        "<p style=\"color: var(--error);\">Please enter a summoner name</p>"] ∧
    fetchUrls (analyzeSummoner summonerName region outcome) = [] := by
  subst h
  exact ⟨rfl, rfl⟩

/-- Witness for C1 at a concrete input. -/
theorem analyzeSummoner_empty_name_validates_witness :
    analyzeSummoner "" "na1" (AnalyzeOutcome.ok "abc" "2 min") =
      [Effect.setInnerHTML "analysisStatus"
        "<p style=\"color: var(--error);\">Please enter a summoner name</p>"] ∧
    fetchUrls (analyzeSummoner "" "na1" (AnalyzeOutcome.ok "abc" "2 min")) = [] :=
  analyzeSummoner_empty_name_validates "na1" (AnalyzeOutcome.ok "abc" "2 min") "" rfl

/-- C2 counterexample: the catch branch of `checkSystemHealth` logs the
error to the console but writes nothing into the page, so it is not the
case that every fetch's error branch both displays a page message and logs
to the console. -/
theorem checkSystemHealth_catch_no_page_display :
    (checkSystemHealth (HealthOutcome.failure "NetworkError")).any
        Effect.isConsoleError = true ∧
    (checkSystemHealth (HealthOutcome.failure "NetworkError")).any
        Effect.isPageDisplay = false := by
  constructor <;> rfl

/-- C2 (amended): every fetch in the frontend is wrapped in a try/catch; when
the fetch fails, the handler either writes a message into the page or logs
the error to the console (`sendChatMessage` does both); and no trace ever
contains more than one request, i.e. there is no retry or backoff. -/
theorem fetch_error_handled_no_retry
    (ho : HealthOutcome) (ao : AnalyzeOutcome) (co co2 : ChatOutcome)
    (name region v v2 errMsg : String) :
    countFetch (checkSystemHealth ho) ≤ 1 ∧
    countFetch (analyzeSummoner name region ao) ≤ 1 ∧
    countFetch (sendChatMessage v co) ≤ 1 ∧
    countFetch (MetaChat.sendMessage v2 co2) ≤ 1 ∧
    (checkSystemHealth (HealthOutcome.failure errMsg)).any
        (fun e => e.isPageDisplay || e.isConsoleError) = true ∧
    (analyzeSummoner name region (AnalyzeOutcome.networkError errMsg)).any
        (fun e => e.isPageDisplay || e.isConsoleError) = true ∧
    ((sendChatMessage v (ChatOutcome.error errMsg)).any Effect.isFetch = true →
      (sendChatMessage v (ChatOutcome.error errMsg)).any Effect.isPageDisplay = true ∧
      (sendChatMessage v (ChatOutcome.error errMsg)).any Effect.isConsoleError = true) ∧
    ((MetaChat.sendMessage v2 (ChatOutcome.error errMsg)).any Effect.isFetch = true →
      (MetaChat.sendMessage v2 (ChatOutcome.error errMsg)).any
        (fun e => e.isPageDisplay || e.isConsoleError) = true) := by
  refine ⟨?_, ?_, ?_, ?_, ?_, ?_, ?_, ?_⟩
  · cases ho with
    | ok services =>
        have h0 := countFetch_updateAgentStatus services
        rw [countFetch, List.countP_eq_zero] at h0
        simp [checkSystemHealth, countFetch, List.countP_cons, Effect.isFetch]
        intro a ha
        simpa using h0 a ha
    | failure m => simp [checkSystemHealth, countFetch, List.countP_cons, Effect.isFetch]
  · by_cases h : name = "" <;>
      cases ao <;>
      simp [analyzeSummoner, h, countFetch, List.countP_cons, Effect.isFetch]
  · by_cases h : jsTrim v = "" <;>
      cases co <;>
      simp [sendChatMessage, h, countFetch, List.countP_cons, Effect.isFetch]
  · by_cases h : jsTrim v2 = "" <;>
      cases co2 <;>
      simp [MetaChat.sendMessage, MetaChat.addMessage, h, countFetch,
        List.countP_cons, Effect.isFetch]
  · simp [checkSystemHealth, Effect.isConsoleError]
  · by_cases h : name = "" <;>
      simp [analyzeSummoner, h, Effect.isPageDisplay]
  · intro hf
    by_cases h : jsTrim v = ""
    · simp [sendChatMessage, h] at hf
    · constructor <;>
        simp [sendChatMessage, h, Effect.isPageDisplay, Effect.isConsoleError]
  · intro hf
    by_cases h : jsTrim v2 = ""
    · simp [MetaChat.sendMessage, h] at hf
    · simp [MetaChat.sendMessage, MetaChat.addMessage, h, Effect.isPageDisplay]

/-- Witness for C2's amended theorem at concrete inputs. -/
theorem fetch_error_handled_no_retry_witness :
    countFetch (checkSystemHealth (HealthOutcome.failure "down")) ≤ 1 ∧
    (sendChatMessage "hi" (ChatOutcome.error "down")).any Effect.isFetch = true ∧
    (sendChatMessage "hi" (ChatOutcome.error "down")).any Effect.isPageDisplay = true := by
  have h := fetch_error_handled_no_retry (HealthOutcome.failure "down")
    (AnalyzeOutcome.networkError "down") (ChatOutcome.error "down")
    (ChatOutcome.error "down") "x" "na1" "hi" "hi" "down"
  have hf : (sendChatMessage "hi" (ChatOutcome.error "down")).any Effect.isFetch = true := by
    decide
  exact ⟨h.1, hf, (h.2.2.2.2.2.2.1 hf).1⟩

/-- The seven REST endpoint paths documented for the platform (README /
spec section 6), relative to `/api/v1`. -/
def documentedEndpoints : List String :=
  ["/health", "/summoner/analyze", "/synergy/graph/\x7bid\x7d",
   "/meta/evolution/\x7bid\x7d", "/predictions/compositions",
   "/insights/narrative/\x7bid\x7d", "/meta/chat"]

lemma fetchUrls_updateAgentStatus (services : List (String × String)) :
    fetchUrls (updateAgentStatus services) = [] := by
  rw [fetchUrls, List.filterMap_eq_nil_iff]
  intro e he
  simp only [updateAgentStatus, List.mem_filterMap] at he
  obtain ⟨sv, _, hsv⟩ := he
  cases h : agentMapping.lookup sv.1 with
  | none => rw [h] at hsv; simp at hsv
  | some agent =>
    rw [h] at hsv
    simp only [Option.map] at hsv
    injection hsv with hsv
    cases hsv
    rfl

/-- C4: every URL fetched anywhere in the frontend source is `/api/v1`
followed by one of the seven documented endpoint paths; no fetch targets
any other path.  (The four functions below are the only `fetch` call sites
in the source.) -/
theorem frontend_fetches_documented
    (ho : HealthOutcome) (ao : AnalyzeOutcome) (co co2 : ChatOutcome)
    (name region v v2 url : String)
    (hmem : url ∈ fetchUrls (checkSystemHealth ho) ++
      fetchUrls (analyzeSummoner name region ao) ++
      fetchUrls (sendChatMessage v co) ++
      fetchUrls (MetaChat.sendMessage v2 co2)) :
    ∃ rest, url = API_BASE_URL ++ rest ∧ rest ∈ documentedEndpoints := by
  have hurl : url ∈ ["/api/v1/health", "/api/v1/summoner/analyze", "/api/v1/meta/chat"] := by
    simp only [List.mem_append] at hmem
    rcases hmem with ((h | h) | h) | h
    · cases ho with
      | ok services =>
          have h0 := fetchUrls_updateAgentStatus services
          rw [fetchUrls] at h0
          simp [checkSystemHealth, fetchUrls, List.filterMap_cons, API_BASE_URL, h0] at h
          simp [h]
      | failure m =>
          simp [checkSystemHealth, fetchUrls, List.filterMap_cons, API_BASE_URL] at h
          simp [h]
    · by_cases hn : name = "" <;> cases ao <;>
        simp [analyzeSummoner, hn, fetchUrls, List.filterMap_cons, API_BASE_URL] at h <;>
        simp [h]
    · by_cases hv : jsTrim v = "" <;> cases co <;>
        simp [sendChatMessage, hv, fetchUrls, List.filterMap_cons, API_BASE_URL] at h <;>
        simp [h]
    · by_cases hv : jsTrim v2 = "" <;> cases co2 <;>
        simp [MetaChat.sendMessage, MetaChat.addMessage, hv, fetchUrls,
          List.filterMap_cons, API_BASE_URL] at h <;>
        simp [h]
  simp only [List.mem_cons, List.not_mem_nil, or_false] at hurl
  rcases hurl with rfl | rfl | rfl
  · exact ⟨"/health", by decide, by decide⟩
  · exact ⟨"/summoner/analyze", by decide, by decide⟩
  · exact ⟨"/meta/chat", by decide, by decide⟩

/-- Witness for C4 at a concrete input. -/
theorem frontend_fetches_documented_witness :
    ∃ rest, "/api/v1/health" = API_BASE_URL ++ rest ∧ rest ∈ documentedEndpoints :=
  frontend_fetches_documented (HealthOutcome.ok []) (AnalyzeOutcome.ok "a" "t")
    (ChatOutcome.ok "r") (ChatOutcome.ok "r") "x" "na1" "hi" "hi" "/api/v1/health"
    (by decide)

/-- A JSON value as produced by the mock data generators in demo.js.
`undef` is JavaScript `undefined` (the value of a `switch` with no matching
case and no default). -/
inductive JVal where
  | null
  | undef
  | bool (b : Bool)
  | num (q : ℚ)
  | str (s : String)
  | arr (elems : List JVal)
  | obj (fields : List (String × JVal))

/-- Is the effect an artificial `sleep` delay? -/
def Effect.isSleep : Effect → Bool
  | .sleep _ => true
  | _ => false

/-- `mockGraphData()` (demo.js lines 344-362): sleep 500ms, then return the
hard-coded node/edge object. -/
def mockGraphData : List Effect × JVal :=
  ([Effect.sleep 500],
   .obj [("nodes", .arr [
      .obj [("id", .str "player1"), ("name", .str "You"), ("radius", .num 12),
            ("color", .str "#0066cc")],
      .obj [("id", .str "player2"), ("name", .str "Player A"), ("radius", .num 10),
            ("color", .str "#00c896")],
      .obj [("id", .str "player3"), ("name", .str "Player B"), ("radius", .num 10),
            ("color", .str "#00c896")],
      .obj [("id", .str "player4"), ("name", .str "Player C"), ("radius", .num 10),
            ("color", .str "#00c896")],
      .obj [("id", .str "player5"), ("name", .str "Player D"), ("radius", .num 8),
            ("color", .str "#ffaa00")]]),
    ("edges", .arr [
      .obj [("source", .str "player1"), ("target", .str "player2"), ("value", .num 0.87)],
      .obj [("source", .str "player1"), ("target", .str "player3"), ("value", .num 0.72)],
      .obj [("source", .str "player1"), ("target", .str "player4"), ("value", .num 0.91)],
      .obj [("source", .str "player2"), ("target", .str "player3"), ("value", .num 0.68)],
      .obj [("source", .str "player3"), ("target", .str "player4"), ("value", .num 0.75)]])])

/-- `mockChemistryData()` (demo.js lines 364-375). -/
def mockChemistryData : List Effect × JVal :=
  ([Effect.sleep 500],
   .obj [("pairs", .arr [
      .obj [("player1", .str "You"), ("player2", .str "Player A"), ("score", .num 0.87)],
      .obj [("player1", .str "You"), ("player2", .str "Player B"), ("score", .num 0.72)],
      .obj [("player1", .str "You"), ("player2", .str "Player C"), ("score", .num 0.91)],
      .obj [("player1", .str "You"), ("player2", .str "Player D"), ("score", .num 0.63)]]),
    ("average_synergy", .num 0.78)])

/-- `mockMetaData(patch)` (demo.js lines 377-386): the only argument-dependent
field is `patch_version`. -/
def mockMetaData (patch : String) : List Effect × JVal :=
  ([Effect.sleep 500],
   .obj [("patch_version", .str patch),
    ("win_rate", .num 0.56),
    ("games_played", .num 45),
    ("meta_shifts", .arr [.str "ADC buffs", .str "Jungle nerfs"]),
    ("impact_score", .num 0.72)])

/-- `mockAdaptationData()` (demo.js lines 388-396). -/
def mockAdaptationData : List Effect × JVal :=
  ([Effect.sleep 500],
   .obj [("patches", .arr [.str "14.17", .str "14.18", .str "14.19", .str "14.20",
            .str "14.21"]),
    ("win_rates", .arr [.num 0.52, .num 0.48, .num 0.55, .num 0.59, .num 0.57]),
    ("adaptation_speeds", .arr [.num 0.8, .num 0.6, .num 0.9, .num 0.7, .num 0.85]),
    ("latency", .num 1.8)])

/-- `mockCompositionData()` (demo.js lines 398-407). -/
def mockCompositionData : List Effect × JVal :=
  ([Effect.sleep 500],
   .obj [("top_compositions", .arr [
      .obj [("comp_id", .num 1), ("predicted_wr", .num 0.62), ("confidence", .num 0.85)],
      .obj [("comp_id", .num 2), ("predicted_wr", .num 0.59), ("confidence", .num 0.79)],
      .obj [("comp_id", .num 3), ("predicted_wr", .num 0.58), ("confidence", .num 0.82)]])])

/-- The `narratives` object literal in `mockNarrative` (demo.js). -/
def narratives : List (String × String) :=
  [("synergy", "Your synergy with Player C peaked in patch 14.20, driven by coordinated objective control and complementary champion pools. Your duo win rate increased by 15% after adopting scaling compositions, demonstrating strong adaptability to the mid-game meta shift."),
   ("adaptation", "You adapted to the latest ADC patch changes faster than 78% of players in your MMR bracket. Your adaptation speed improved from 2.3 patches to 1.8 patches, showing enhanced meta awareness and champion pool flexibility."),
   ("meta", "After patch 14.19 when assassins fell out of favor, your team successfully shifted toward objective-based compositions. This transition was 40% faster than similar MMR teams, resulting in a 12% win rate improvement over the following 30 games."),
   ("season", "This season, your squad evolved from struggling in early-mid meta transitions to mastering adaptive drafts by season\x27s end. From your initial 48% win rate in patch 14.15 to your current 59% in patch 14.21, you demonstrated a 22% performance improvement driven by stronger synergy development and faster meta adaptation.")]

/-- JavaScript `a || b` on a string `a`: `b` when `a` is absent or falsy
(the empty string), otherwise `a`. -/
def jsStrOr (o : Option String) (dflt : String) : String :=
  match o with
  | none => dflt
  | some s => if s = "" then dflt else s

/-- `mockNarrative(insightType)` (demo.js lines 409-418):
`narratives[insightType] || 'Generating narrative insight...'`. -/
def mockNarrative (insightType : String) : List Effect × JVal :=
  ([Effect.sleep 500],
   .str (jsStrOr (narratives.lookup insightType) "Generating narrative insight..."))

/-- `mockVizData(vizType)` (demo.js lines 420-451): the `synergy` case awaits
`mockGraphData()` (a second sleep); a `vizType` outside the four cases falls
out of the `switch` and returns `undefined`. -/
def mockVizData (vizType : String) : List Effect × JVal :=
  if vizType = "synergy" then
    (Effect.sleep 500 :: mockGraphData.1, mockGraphData.2)
  else if vizType = "heatmap" then
    ([Effect.sleep 500], .arr [
      .obj [("patch", .str "14.17"), ("win_rate", .num 0.52)],
      .obj [("patch", .str "14.18"), ("win_rate", .num 0.48)],
      .obj [("patch", .str "14.19"), ("win_rate", .num 0.55)],
      .obj [("patch", .str "14.20"), ("win_rate", .num 0.59)],
      .obj [("patch", .str "14.21"), ("win_rate", .num 0.57)]])
  else if vizType = "timeline" then
    ([Effect.sleep 500], .arr [
      .obj [("date", .str "2024-09-01"), ("value", .num 0.52)],
      .obj [("date", .str "2024-09-15"), ("value", .num 0.48)],
      .obj [("date", .str "2024-10-01"), ("value", .num 0.55)],
      .obj [("date", .str "2024-10-15"), ("value", .num 0.59)],
      .obj [("date", .str "2024-11-01"), ("value", .num 0.57)]])
  else if vizType = "composition" then
    ([Effect.sleep 500], .arr [
      .obj [("name", .str "Comp 1"), ("winRate", .num 0.62)],
      .obj [("name", .str "Comp 2"), ("winRate", .num 0.59)],
      .obj [("name", .str "Comp 3"), ("winRate", .num 0.58)],
      .obj [("name", .str "Comp 4"), ("winRate", .num 0.56)],
      .obj [("name", .str "Comp 5"), ("winRate", .num 0.54)]])
  else
    ([Effect.sleep 500], .undef)

/-- C3: every mock data generator fabricates its response locally: it
performs only a sleep-based delay (in particular it issues no network
request), and calling it twice with the same arguments yields the identical
value. -/
theorem mock_generators_fabricate_locally (patch insightType vizType : String) :
    (mockGraphData.1.all Effect.isSleep = true ∧ countFetch mockGraphData.1 = 0) ∧
    (mockChemistryData.1.all Effect.isSleep = true ∧ countFetch mockChemistryData.1 = 0) ∧
    ((mockMetaData patch).1.all Effect.isSleep = true ∧
      countFetch (mockMetaData patch).1 = 0) ∧
    (mockAdaptationData.1.all Effect.isSleep = true ∧
      countFetch mockAdaptationData.1 = 0) ∧
    (mockCompositionData.1.all Effect.isSleep = true ∧
      countFetch mockCompositionData.1 = 0) ∧
    ((mockNarrative insightType).1.all Effect.isSleep = true ∧
      countFetch (mockNarrative insightType).1 = 0) ∧
    ((mockVizData vizType).1.all Effect.isSleep = true ∧
      countFetch (mockVizData vizType).1 = 0) ∧
    (∀ patch2, patch = patch2 → mockMetaData patch = mockMetaData patch2) ∧
    (∀ insightType2, insightType = insightType2 →
      mockNarrative insightType = mockNarrative insightType2) ∧
    (∀ vizType2, vizType = vizType2 → mockVizData vizType = mockVizData vizType2) := by
  refine ⟨⟨rfl, rfl⟩, ⟨rfl, rfl⟩, ⟨rfl, rfl⟩, ⟨rfl, rfl⟩, ⟨rfl, rfl⟩, ⟨rfl, rfl⟩,
    ⟨?_, ?_⟩, ?_, ?_, ?_⟩
  · simp only [mockVizData]
    split_ifs <;> rfl
  · simp only [mockVizData]
    split_ifs <;> rfl
  · intro patch2 h; rw [h]
  · intro insightType2 h; rw [h]
  · intro vizType2 h; rw [h]

/-- Witness for C3 at concrete arguments. -/
theorem mock_generators_fabricate_locally_witness :
    mockGraphData.1.all Effect.isSleep = true ∧
    (mockVizData "heatmap").1.all Effect.isSleep = true ∧
    mockMetaData "14.20" = mockMetaData "14.20" :=
  have h := mock_generators_fabricate_locally "14.20" "synergy" "heatmap"
  ⟨h.1.1, (h.2.2.2.2.2.2.1).1, (h.2.2.2.2.2.2.2.1) "14.20" rfl⟩

lemma jsStrOr_ne_empty (o : Option String) (dflt : String) (hd : dflt ≠ "") :
    jsStrOr o dflt ≠ "" := by
  cases o with
  | none => simpa [jsStrOr] using hd
  | some s =>
    by_cases hs : s = "" <;> simp [jsStrOr, hs]
    exact hd

/-- C8: `mockNarrative` is total: it returns a non-empty string for every
`insightType`, and for any `insightType` outside the four keyed narratives
it returns the default string. -/
theorem mockNarrative_total (insightType : String) :
    (∃ s, (mockNarrative insightType).2 = JVal.str s ∧ s ≠ "") ∧
    (insightType ∉ ["synergy", "adaptation", "meta", "season"] →
      (mockNarrative insightType).2 = JVal.str "Generating narrative insight...") := by
  constructor
  · exact ⟨jsStrOr (narratives.lookup insightType) "Generating narrative insight...",
      rfl, jsStrOr_ne_empty _ _ (by decide)⟩
  · intro h
    simp only [List.mem_cons, List.not_mem_nil, or_false, not_or] at h
    obtain ⟨h1, h2, h3, h4⟩ := h
    simp [mockNarrative, narratives, List.lookup, jsStrOr,
      beq_eq_false_iff_ne.mpr h1, beq_eq_false_iff_ne.mpr h2,
      beq_eq_false_iff_ne.mpr h3, beq_eq_false_iff_ne.mpr h4]

/-- Witness for C8 at a concrete input. -/
theorem mockNarrative_total_witness :
    (∃ s, (mockNarrative "foo").2 = JVal.str s ∧ s ≠ "") ∧
    (mockNarrative "foo").2 = JVal.str "Generating narrative insight..." :=
  have h := mockNarrative_total "foo"
  ⟨h.1, h.2 (by decide)⟩

/-- The options object passed to the `SynergyGraph` constructor
(synergy_graph.js lines 8-22); a field is `none` when the key is absent. -/
structure GraphOptions where
  nodeRadius : Option ℚ
  linkDistance : Option ℚ
  chargeStrength : Option ℚ
  deriving DecidableEq, Repr

/-- The numeric parameters stored in `this.options` by the constructor. -/
structure ResolvedOptions where
  nodeRadius : ℚ
  linkDistance : ℚ
  chargeStrength : ℚ
  deriving DecidableEq, Repr

/-- The force parameters `initialize()` passes to the d3 force simulation
(synergy_graph.js lines 56-60). -/
structure SimulationForces where
  linkDistance : ℚ
  manyBodyStrength : ℚ
  collideRadius : ℚ
  deriving DecidableEq, Repr

namespace SynergyGraph

/-- `this.options = \x7bnodeRadius: options.nodeRadius || 10, linkDistance:
options.linkDistance || 100, chargeStrength: options.chargeStrength || -400,
...options\x7d`: the spread of `options` comes last, so any key present in
`options` keeps its given value and an absent key gets the default computed
before it. -/
def resolveOptions (options : GraphOptions) : ResolvedOptions :=
  { nodeRadius := options.nodeRadius.getD 10
    linkDistance := options.linkDistance.getD 100
    chargeStrength := options.chargeStrength.getD (-400) }

/-- `initialize()`: `forceLink().distance(this.options.linkDistance)`,
`forceManyBody().strength(this.options.chargeStrength)`,
`forceCollide().radius(this.options.nodeRadius * 2)`. -/
def initForces (opts : ResolvedOptions) : SimulationForces :=
  { linkDistance := opts.linkDistance
    manyBodyStrength := opts.chargeStrength
    collideRadius := opts.nodeRadius * 2 }

/-- `getLinkColor(value)` (synergy_graph.js lines 244-249). -/
def getLinkColor (value : ℚ) : String :=
  if value > 0.8 then "#00c896"
  else if value > 0.6 then "#0066cc"
  else if value > 0.4 then "#ffaa00"
  else "#ff6b35"

/-- `getLinkWidth(value)` (synergy_graph.js lines 251-253). -/
def getLinkWidth (value : ℚ) : ℚ := 1 + value * 5

end SynergyGraph

/-- C5: the `SynergyGraph` constructor takes `nodeRadius`, `linkDistance` and
`chargeStrength` from its options argument, defaulting to 10, 100 and -400
when the option is absent, and `initialize()` forwards exactly these values
to the force simulation: link distance, many-body strength, and a collision
radius of twice the node radius. -/
theorem synergyGraph_options_forwarded (options : GraphOptions) :
    (SynergyGraph.initForces (SynergyGraph.resolveOptions options)).linkDistance =
      (SynergyGraph.resolveOptions options).linkDistance ∧
    (SynergyGraph.initForces (SynergyGraph.resolveOptions options)).manyBodyStrength =
      (SynergyGraph.resolveOptions options).chargeStrength ∧
    (SynergyGraph.initForces (SynergyGraph.resolveOptions options)).collideRadius =
      (SynergyGraph.resolveOptions options).nodeRadius * 2 ∧
    (options.linkDistance = none →
      (SynergyGraph.resolveOptions options).linkDistance = 100) ∧
    (options.chargeStrength = none →
      (SynergyGraph.resolveOptions options).chargeStrength = -400) ∧
    (options.nodeRadius = none → (SynergyGraph.resolveOptions options).nodeRadius = 10) ∧
    (∀ v, options.linkDistance = some v →
      (SynergyGraph.resolveOptions options).linkDistance = v) ∧
    (∀ v, options.chargeStrength = some v →
      (SynergyGraph.resolveOptions options).chargeStrength = v) ∧
    (∀ v, options.nodeRadius = some v →
      (SynergyGraph.resolveOptions options).nodeRadius = v) := by
  refine ⟨rfl, rfl, rfl, ?_, ?_, ?_, ?_, ?_, ?_⟩ <;>
    first
      | (intro h; simp [SynergyGraph.resolveOptions, h])
      | (intro v h; simp [SynergyGraph.resolveOptions, h])

/-- Witness for C5 at a concrete options object with all keys absent. -/
theorem synergyGraph_options_forwarded_witness :
    (SynergyGraph.resolveOptions ⟨none, none, none⟩).linkDistance = 100 ∧
    (SynergyGraph.resolveOptions ⟨none, none, none⟩).chargeStrength = -400 ∧
    (SynergyGraph.resolveOptions ⟨none, none, none⟩).nodeRadius = 10 ∧
    (SynergyGraph.initForces (SynergyGraph.resolveOptions ⟨none, none, none⟩)).collideRadius =
      (SynergyGraph.resolveOptions ⟨none, none, none⟩).nodeRadius * 2 :=
  have h := synergyGraph_options_forwarded ⟨none, none, none⟩
  ⟨h.2.2.2.1 rfl, h.2.2.2.2.1 rfl, h.2.2.2.2.2.1 rfl, h.2.2.1⟩

/-- C9: link width is the affine map `1 + value * 5`, strictly monotone in
the synergy value, and link colour is assigned by the total threshold
partition `> 0.8`, `> 0.6`, `> 0.4`, else the fallback colour. -/
theorem link_styling_monotone_total (a b v : ℚ) :
    SynergyGraph.getLinkWidth v = 1 + v * 5 ∧
    (a < b → SynergyGraph.getLinkWidth a < SynergyGraph.getLinkWidth b) ∧
    (v > 0.8 → SynergyGraph.getLinkColor v = "#00c896") ∧
    (v ≤ 0.8 → v > 0.6 → SynergyGraph.getLinkColor v = "#0066cc") ∧
    (v ≤ 0.6 → v > 0.4 → SynergyGraph.getLinkColor v = "#ffaa00") ∧
    (v ≤ 0.4 → SynergyGraph.getLinkColor v = "#ff6b35") := by
  refine ⟨rfl, ?_, ?_, ?_, ?_, ?_⟩
  · intro h
    simp only [SynergyGraph.getLinkWidth]
    linarith
  · intro h
    rw [SynergyGraph.getLinkColor, if_pos h]
  · intro h1 h2
    rw [SynergyGraph.getLinkColor, if_neg (by exact not_lt.mpr h1), if_pos h2]
  · intro h1 h2
    rw [SynergyGraph.getLinkColor, if_neg (by push_neg; linarith),
      if_neg (by exact not_lt.mpr h1), if_pos h2]
  · intro h1
    rw [SynergyGraph.getLinkColor, if_neg (by push_neg; linarith),
      if_neg (by push_neg; linarith), if_neg (by exact not_lt.mpr h1)]

/-- Witness for C9 at concrete synergy values in each colour band. -/
theorem link_styling_monotone_total_witness :
    SynergyGraph.getLinkWidth 0 < SynergyGraph.getLinkWidth 1 ∧
    SynergyGraph.getLinkColor 1 = "#00c896" ∧
    SynergyGraph.getLinkColor 0.7 = "#0066cc" ∧
    SynergyGraph.getLinkColor 0.5 = "#ffaa00" ∧
    SynergyGraph.getLinkColor 0 = "#ff6b35" :=
  ⟨(link_styling_monotone_total 0 1 1).2.1 (by norm_num),
   (link_styling_monotone_total 0 1 1).2.2.1 (by norm_num),
   (link_styling_monotone_total 0 1 0.7).2.2.2.1 (by norm_num) (by norm_num),
   (link_styling_monotone_total 0 1 0.5).2.2.2.2.1 (by norm_num) (by norm_num),
   (link_styling_monotone_total 0 1 0).2.2.2.2.2 (by norm_num)⟩

/-- A node of the rendered synergy graph (`graphData.nodes`); after d3
initialises the simulation, links refer to nodes, modelled here by id. -/
structure GNode where
  id : String
  deriving DecidableEq, Repr

/-- A link of the rendered synergy graph (`graphData.links`). -/
structure GLink where
  source : String
  target : String
  value : ℚ
  deriving DecidableEq, Repr

/-- The `graphData` stored by `SynergyGraph.render`. -/
structure RenderedGraph where
  nodes : List GNode
  links : List GLink
  deriving DecidableEq, Repr

/-- The attribute state the highlight/fade interaction manipulates: per-node
`opacity` and per-link `stroke-opacity` / `stroke-width`, in the order of
`graphData.nodes` / `graphData.links`.  (SVG elements render with effective
opacity 1 until the attribute is set.) -/
structure VisualState where
  nodeOpacity : List ℚ
  linkStrokeOpacity : List ℚ
  linkStrokeWidth : List ℚ
  deriving DecidableEq, Repr

namespace SynergyGraph

/-- The connectivity test inside `highlightNode` (synergy_graph.js lines
210-215): some link joins `n` and `d` in either direction. -/
def connectedTo (g : RenderedGraph) (n d : GNode) : Bool :=
  g.links.any fun l =>
    (l.source == n.id && l.target == d.id) || (l.target == n.id && l.source == d.id)

/-- Attribute state set by `renderLinks`/`renderNodes` (synergy_graph.js
lines 87-95): links get `stroke-width getLinkWidth(value)` and
`stroke-opacity 0.6`; node opacity is the SVG default 1. -/
def renderState (g : RenderedGraph) : VisualState :=
  { nodeOpacity := g.nodes.map fun _ => 1
    linkStrokeOpacity := g.links.map fun _ => 0.6
    linkStrokeWidth := g.links.map fun l => getLinkWidth l.value }

/-- `highlightNode(node)` (synergy_graph.js lines 204-229).  It recomputes
every node's opacity and every link's stroke attributes from `graphData`
alone, ignoring the previous attribute state. -/
def highlightNode (g : RenderedGraph) (n : GNode) (_s : VisualState) : VisualState :=
  { nodeOpacity := g.nodes.map fun d =>
      if d == n then 1 else if connectedTo g n d then 1 else 0.2
    linkStrokeOpacity := g.links.map fun l =>
      if l.source == n.id || l.target == n.id then 1 else 0.1
    linkStrokeWidth := g.links.map fun l =>
      if l.source == n.id || l.target == n.id then getLinkWidth l.value * 1.5
      else getLinkWidth l.value }

/-- `resetHighlight()` (synergy_graph.js lines 231-242): every node back to
opacity 1, every link back to stroke-opacity 0.6 and width
`getLinkWidth(value)`, independent of the previous attribute state. -/
def resetHighlight (g : RenderedGraph) (_s : VisualState) : VisualState :=
  { nodeOpacity := g.nodes.map fun _ => 1
    linkStrokeOpacity := g.links.map fun _ => 0.6
    linkStrokeWidth := g.links.map fun l => getLinkWidth l.value }

end SynergyGraph

/-- C6: the highlight/fade interaction is a round trip.  `highlightNode n`
gives opacity 1 to `n` and to every node sharing a link with `n` and 0.2 to
all other nodes, and raises the stroke width of links incident to `n` to
1.5 times their base width (stroke-opacity 1, others 0.1); a subsequent
`resetHighlight` restores every node to opacity 1 and every link to
stroke-opacity 0.6 and base width, which is exactly the attribute state
after `render`. -/
theorem highlight_reset_roundtrip (g : RenderedGraph) (n : GNode)
    (s : VisualState) (i : Nat) :
    SynergyGraph.resetHighlight g (SynergyGraph.highlightNode g n s) =
      SynergyGraph.renderState g ∧
    (SynergyGraph.highlightNode g n s).nodeOpacity[i]? =
      (g.nodes[i]?).map (fun d =>
        if d == n || SynergyGraph.connectedTo g n d then 1 else 0.2) ∧
    (SynergyGraph.highlightNode g n s).linkStrokeWidth[i]? =
      (g.links[i]?).map (fun l =>
        if l.source == n.id || l.target == n.id then
          SynergyGraph.getLinkWidth l.value * 1.5
        else SynergyGraph.getLinkWidth l.value) ∧
    (SynergyGraph.highlightNode g n s).linkStrokeOpacity[i]? =
      (g.links[i]?).map (fun l =>
        if l.source == n.id || l.target == n.id then (1 : ℚ) else 0.1) ∧
    (SynergyGraph.resetHighlight g (SynergyGraph.highlightNode g n s)).nodeOpacity[i]? =
      (g.nodes[i]?).map (fun _ => (1 : ℚ)) ∧
    (SynergyGraph.resetHighlight g
        (SynergyGraph.highlightNode g n s)).linkStrokeOpacity[i]? =
      (g.links[i]?).map (fun _ => (0.6 : ℚ)) ∧
    (SynergyGraph.resetHighlight g (SynergyGraph.highlightNode g n s)).linkStrokeWidth[i]? =
      (g.links[i]?).map (fun l => SynergyGraph.getLinkWidth l.value) := by
  refine ⟨rfl, ?_, ?_, ?_, ?_, ?_, ?_⟩
  · simp only [SynergyGraph.highlightNode, List.getElem?_map]
    cases g.nodes[i]? with
    | none => rfl
    | some d =>
      simp only [Option.map]
      by_cases h1 : d == n <;> by_cases h2 : SynergyGraph.connectedTo g n d <;>
        simp [h1, h2]
  · simp only [SynergyGraph.highlightNode, List.getElem?_map]
  · simp only [SynergyGraph.highlightNode, List.getElem?_map]
  · simp only [SynergyGraph.resetHighlight, List.getElem?_map]
  · simp only [SynergyGraph.resetHighlight, List.getElem?_map]
  · simp only [SynergyGraph.resetHighlight, List.getElem?_map]

/-- A d3 simulation node as the drag handlers see it: current position
`x`,`y` and the fixed-position fields `fx`,`fy` (`null` when unset). -/
structure SimNode where
  id : String
  x : ℚ
  y : ℚ
  fx : Option ℚ
  fy : Option ℚ
  deriving DecidableEq, Repr

/-- The drag event: pointer coordinates and `event.active`.  (`event.active`
only gates `simulation.alphaTarget(...)`, which touches the simulation, not
any node.) -/
structure DragEvent where
  x : ℚ
  y : ℚ
  active : Bool
  deriving DecidableEq, Repr

/-- `dragstarted(event, d)` (synergy_graph.js lines 181-185,
visualizations.js lines 281-285): `d.fx = d.x; d.fy = d.y`. -/
def dragstarted (_event : DragEvent) (d : SimNode) : SimNode :=
  { d with fx := some d.x, fy := some d.y }

/-- `dragged(event, d)` (synergy_graph.js lines 187-190, visualizations.js
lines 287-290): `d.fx = event.x; d.fy = event.y`. -/
def dragged (event : DragEvent) (d : SimNode) : SimNode :=
  { d with fx := some event.x, fy := some event.y }

/-- `dragended(event, d)` (synergy_graph.js lines 192-196, visualizations.js
lines 292-296): `d.fx = null; d.fy = null`. -/
def dragended (_event : DragEvent) (d : SimNode) : SimNode :=
  { d with fx := none, fy := none }

/-- d3 dispatches a drag handler to the single dragged datum: the node at
index `i` of the simulation's node list is replaced by the handler's
mutation of it, every other node is untouched. -/
def applyDragHandler (h : DragEvent → SimNode → SimNode) (event : DragEvent) :
    List SimNode → Nat → List SimNode
  | [], _ => []
  | d :: ds, 0 => h event d :: ds
  | d :: ds, i + 1 => d :: applyDragHandler h event ds i

lemma getElem?_applyDragHandler (h : DragEvent → SimNode → SimNode)
    (event : DragEvent) (nodes : List SimNode) (i j : Nat) :
    (applyDragHandler h event nodes i)[j]? =
      if j = i then (nodes[j]?).map (h event) else nodes[j]? := by
  induction nodes generalizing i j with
  | nil => cases i <;> simp [applyDragHandler]
  | cons d ds ih =>
    cases i with
    | zero =>
      cases j with
      | zero => simp [applyDragHandler]
      | succ j => simp [applyDragHandler]
    | succ i =>
      cases j with
      | zero => simp [applyDragHandler]
      | succ j =>
        simp only [applyDragHandler, List.getElem?_cons_succ, ih, Nat.succ_eq_add_one]
        by_cases hj : j = i <;> simp [hj]

/-- C7: the drag handlers mutate only the dragged node's `fx`/`fy`:
drag-start sets them to the node's current position, drag to the pointer
coordinates, drag-end to null; `id`, `x` and `y` are untouched, and in the
node list every node other than the dragged one is unchanged. -/
theorem drag_handlers_touch_only_fx_fy (event : DragEvent) (d : SimNode)
    (nodes : List SimNode) (i j : Nat) :
    (dragstarted event d).fx = some d.x ∧ (dragstarted event d).fy = some d.y ∧
    (dragged event d).fx = some event.x ∧ (dragged event d).fy = some event.y ∧
    (dragended event d).fx = none ∧ (dragended event d).fy = none ∧
    (dragstarted event d).id = d.id ∧ (dragstarted event d).x = d.x ∧
      (dragstarted event d).y = d.y ∧
    (dragged event d).id = d.id ∧ (dragged event d).x = d.x ∧
      (dragged event d).y = d.y ∧
    (dragended event d).id = d.id ∧ (dragended event d).x = d.x ∧
      (dragended event d).y = d.y ∧
    (j ≠ i →
      (applyDragHandler dragstarted event nodes i)[j]? = nodes[j]? ∧
      (applyDragHandler dragged event nodes i)[j]? = nodes[j]? ∧
      (applyDragHandler dragended event nodes i)[j]? = nodes[j]?) := by
  refine ⟨rfl, rfl, rfl, rfl, rfl, rfl, rfl, rfl, rfl, rfl, rfl, rfl, rfl, rfl, rfl, ?_⟩
  intro hj
  refine ⟨?_, ?_, ?_⟩ <;> rw [getElem?_applyDragHandler, if_neg hj]

/-- Witness for C7 at a concrete drag on a two-node list. -/
theorem drag_handlers_touch_only_fx_fy_witness :
    (dragged ⟨3, 4, true⟩ ⟨"player1", 1, 2, none, none⟩).fx = some 3 ∧
    (applyDragHandler dragstarted ⟨3, 4, true⟩
        [⟨"player1", 1, 2, none, none⟩, ⟨"player2", 5, 6, none, none⟩] 0)[1]? =
      some ⟨"player2", 5, 6, none, none⟩ :=
  have h := drag_handlers_touch_only_fx_fy ⟨3, 4, true⟩ ⟨"player1", 1, 2, none, none⟩
    [⟨"player1", 1, 2, none, none⟩, ⟨"player2", 5, 6, none, none⟩] 0 1
  ⟨h.2.2.1, (h.2.2.2.2.2.2.2.2.2.2.2.2.2.2.2 (by decide)).1⟩

/-- C10: a chat message that trims to the empty string is a no-op: both
`sendChatMessage` and `MetaChat.sendMessage` return before appending any
message element, clearing the input, or issuing any network request. -/
theorem empty_chat_message_noop (inputValue inputValue2 : String)
    (outcome outcome2 : ChatOutcome)
    (h : jsTrim inputValue = "") (h2 : jsTrim inputValue2 = "") :
    sendChatMessage inputValue outcome = [] ∧
    MetaChat.sendMessage inputValue2 outcome2 = [] := by
  constructor
  · simp [sendChatMessage, h]
  · simp [MetaChat.sendMessage, h2]

/-- Witness for C10 on a whitespace-only input. -/
theorem empty_chat_message_noop_witness :
    sendChatMessage "  " (ChatOutcome.ok "r") = [] ∧
    MetaChat.sendMessage "  " (ChatOutcome.error "e") = [] :=
  empty_chat_message_noop "  " "  " (ChatOutcome.ok "r") (ChatOutcome.error "e")
    (by decide) (by decide)
